import Mathlib

/-!
# Shallow embedding of the cab dashboard stream-processing core (`web/cabdash.js`)

This file embeds the stateful stream-processing logic of the front-end file
`web/cabdash.js`: the ride registry (the JS object `rides`), the incremental
statistics (`totalMeter`, `totalPassengers`, `activeRides`, `avgDensity`, ...),
the event classifier `processRide`, the reset `clearStats`, the explicit
user-initiated disconnect branch of `connect`, and the periodic sampler
`cycle`.

Modelling conventions:
* JS numbers are modelled as exact rationals (`ℚ`) for monetary amounts and as
  `ℤ` for integer-valued counters; the claims under study concern structural
  arithmetic identities, not binary rounding.
* The result of a JS division is modelled by `JSVal`, which distinguishes a
  finite number from `NaN` and the two infinities, exactly following IEEE
  semantics for division by zero.
* The JS object `rides` (string keys mapping to ride records) is modelled as an
  insertion-ordered association list: property assignment on an existing key
  keeps its position, a fresh key is appended, `delete` removes it —
  the JS enumeration-order semantics for non-integer string keys.
* DOM writes, the wall-clock quantities (`lag`, message rate) and the
  geographic/timestamp fields of a ride feed only the display and are outside
  the embedded fragment; a `flashMessage` call is modelled as an emitted
  `Notif` value.
-/

/-- The result of a JS floating-point operation, separating finite values from
`NaN` and the infinities. -/
inductive JSVal where
  | num (q : ℚ)
  | nan
  | inf
  | ninf
deriving DecidableEq, Repr

/-- JS division `a / b`: finite quotient when `b ≠ 0`, otherwise `NaN` for
`0 / 0` and a signed infinity for `a / 0` with `a ≠ 0`. -/
def jsDivJ (a b : ℚ) : JSVal :=
  if b = 0 then
    if a = 0 then JSVal.nan
    else if 0 < a then JSVal.inf else JSVal.ninf
  else JSVal.num (a / b)

/-- Holds exactly on a finite JS number. -/
def JSVal.isNum : JSVal → Bool
  | JSVal.num _ => true
  | _ => false

/-- One decoded ride event / registry record (the fields of the JS ride object
that the embedded core reads). -/
structure Ride where
  ride_id : String
  ride_status : String
  passenger_count : ℤ
  meter_reading : ℚ
  sequenceNumber : ℕ
deriving DecidableEq, Repr

/-- Read `rides[k]` on the association-list model of the JS object `rides`:
the record stored under key `k`, if present. -/
def lookupRide : List (String × Ride) → String → Option Ride
  | [], _ => none
  | p :: rest, k => if p.1 = k then some p.2 else lookupRide rest k

/-- Assignment `rides[k] = r`: replace in place when the key is present (JS keeps the
key's position in enumeration order), append otherwise. -/
def upsert : List (String × Ride) → String → Ride → List (String × Ride)
  | [], k, r => [(k, r)]
  | p :: rest, k, r => if p.1 = k then (k, r) :: rest else p :: upsert rest k r

/-- Deletion `delete rides[k]`. -/
def eraseKey : List (String × Ride) → String → List (String × Ride)
  | [], _ => []
  | p :: rest, k => if p.1 = k then eraseKey rest k else p :: eraseKey rest k

/-- The `maxNumRideCards` constant of `cabdash.js`. -/
def maxNumRideCards : ℕ := 9

/-- The module-level mutable state of `cabdash.js` read by the embedded
fragment. -/
structure DashState where
  rides : List (String × Ride)
  totalMeter : ℚ
  totalPassengers : ℤ
  activeRides : ℤ
  totalUpdates : ℕ
  messageSeq : ℕ
  avgDensity : JSVal
deriving DecidableEq, Repr

/-- The initial values of the module-level variables on script load. -/
def initState : DashState :=
  { rides := []
    totalMeter := 0
    totalPassengers := 0
    activeRides := 0
    totalUpdates := 0
    messageSeq := 1
    avgDensity := JSVal.num 0 }

/-- Reset `clearStats()`: zero every counter and empty the registry (the DOM label
writes are display-only). -/
def clearStats (_s : DashState) : DashState :=
  { rides := []
    totalMeter := 0
    totalPassengers := 0
    activeRides := 0
    totalUpdates := 0
    messageSeq := 0
    avgDensity := JSVal.num 0 }

/-- Model of `updateMeterTotal(ride, isNewRide)`: the dropoff branch subtracts the
event's own values, the new-ride branch adds them, and otherwise the meter
total is incremented by the delta against `rides[ride.ride_id]`. -/
def updateMeterTotal (s : DashState) (ride : Ride) (isNewRide : Bool) : DashState :=
  if ride.ride_status = "dropoff" then
    { s with
      totalPassengers := s.totalPassengers - ride.passenger_count
      totalMeter := s.totalMeter - ride.meter_reading }
  else if isNewRide then
    { s with
      totalPassengers := s.totalPassengers + ride.passenger_count
      totalMeter := s.totalMeter + ride.meter_reading }
  else
    match lookupRide s.rides ride.ride_id with
    | some existingRide =>
        { s with totalMeter := s.totalMeter + (ride.meter_reading - existingRide.meter_reading) }
    | none => s

/-- Model of `updateStats(ride, isNewRide)`: bump the update counter, apply
`updateMeterTotal`, then recompute `avgDensity = totalPassengers / activeRides`
(the rate, lag and DOM writes are display-only). -/
def updateStats (s : DashState) (ride : Ride) (isNewRide : Bool) : DashState :=
  let s1 := { s with totalUpdates := s.totalUpdates + 1 }
  let s2 := updateMeterTotal s1 ride isNewRide
  { s2 with avgDensity := jsDivJ (s2.totalPassengers : ℚ) (s2.activeRides : ℚ) }

/-- The fare-per-passenger quotient `totalMeter / totalPassengers` computed
(and displayed) by `updateStats`. -/
def meterPerPassengerVal (s : DashState) : JSVal :=
  jsDivJ s.totalMeter (s.totalPassengers : ℚ)

/-- Model of `sequence(ride)`: stamp the ride with the current `messageSeq`, increment
the counter, and store the stamped record in the registry. Returns the new
state together with the stamped record (in JS, `ride` is mutated in place, so
later reads of `ride` in the same processing step see the stamped record). -/
def sequenceRide (s : DashState) (ride : Ride) : DashState × Ride :=
  let r := { ride with sequenceNumber := s.messageSeq }
  ({ s with
      messageSeq := s.messageSeq + 1
      rides := upsert s.rides ride.ride_id r }, r)

/-- A `flashMessage` notification: the ride identifier and status it renders
(position and map link are display-only). -/
structure Notif where
  rideId : String
  status : String
deriving DecidableEq, Repr

/-- The notification content `flashMessage(ride)` renders. -/
def notifOf (ride : Ride) : Notif :=
  { rideId := ride.ride_id, status := ride.ride_status }

/-- Model of `processRide(ride)`: the event classifier. Returns the new state and the
notification emitted by `flashMessage`, if any. -/
def processRide (s : DashState) (ride : Ride) : DashState × Option Notif :=
  match lookupRide s.rides ride.ride_id with
  | none =>
      let s1 := { s with activeRides := s.activeRides + 1 }
      let sr := sequenceRide s1 ride
      (updateStats sr.1 sr.2 true, none)
  | some _ =>
      if ride.ride_status = "dropoff" then
        let s1 := { s with
          activeRides := s.activeRides - 1
          rides := eraseKey s.rides ride.ride_id }
        (updateStats s1 ride false, some (notifOf ride))
      else
        let sr := sequenceRide s ride
        (updateStats sr.1 sr.2 false,
         if ride.ride_status = "pickup" then some (notifOf ride) else none)

/-- An operation on the shared state: a decoded message processed while
connected, a reset (the `clearStats(); clearCards();` performed when `connect`
opens a fresh socket), or the explicit user-initiated disconnect branch of
`connect` (`ws.close(); ws = undefined; rides = {};` — the counters are left
untouched). -/
inductive Op where
  | ev (r : Ride)
  | reset
  | disconnect
deriving DecidableEq, Repr

/-- Apply one operation, accumulating the emitted notifications. -/
def stepOp (acc : DashState × List Notif) (o : Op) : DashState × List Notif :=
  match o with
  | Op.ev r =>
      let pr := processRide acc.1 r
      (pr.1, acc.2 ++ pr.2.toList)
  | Op.reset => (clearStats acc.1, acc.2)
  | Op.disconnect => ({ acc.1 with rides := [] }, acc.2)

/-- Run a sequence of operations from a clean reset (the state `connect`
establishes before the first message), collecting all notifications. -/
def runOps (ops : List Op) : DashState × List Notif :=
  ops.foldl stepOp (clearStats initState, [])

/-- Sum of the stored meter readings over the registry's current entries. -/
def registrySumMeter (s : DashState) : ℚ :=
  (s.rides.map (fun p => p.2.meter_reading)).sum

/-- Sum of the stored passenger counts over the registry's current entries. -/
def registrySumPassengers (s : DashState) : ℤ :=
  (s.rides.map (fun p => p.2.passenger_count)).sum

/-- JS `Array.prototype.slice(start)` with a single argument: a negative
`start` counts from the end, clamped at `0`. -/
def jsSlice {α : Type} (l : List α) (start : ℤ) : List α :=
  if start < 0 then l.drop ((l.length : ℤ) + start).toNat
  else l.drop start.toNat

/-- The key sample `Object.keys(rides).slice(activeRides - maxNumRideCards)`
computed by `cycle`. -/
def sampleKeys (s : DashState) : List String :=
  jsSlice (s.rides.map Prod.fst) (s.activeRides - (maxNumRideCards : ℤ))

/-- One tick of `cycle()` while connected: the list of `(slot index, ride)`
pairs passed to `refreshCard` (an out-of-range index yields `undefined`, whose
registry lookup is `undefined`, and the slot is skipped). -/
def cycle (s : DashState) : List (ℕ × Ride) :=
  let rideSample := sampleKeys s
  (List.range maxNumRideCards).filterMap (fun i =>
    match rideSample[i]? with
    | some k => (lookupRide s.rides k).map (fun r => (i, r))
    | none => none)

/-- Build a decoded event record with the given identifier, status, passenger
count and meter reading (the locally assigned `sequenceNumber` starts at 0 as
in a freshly parsed JS object, where the field is absent until `sequence`). -/
def mkRide (id status : String) (p : ℤ) (m : ℚ) : Ride :=
  { ride_id := id, ride_status := status, passenger_count := p
    meter_reading := m, sequenceNumber := 0 }

/-- Scenario-B event 1: pickup of ride 1 with 2 passengers, fare 0.00. -/
def pickup1 : Ride := mkRide "1" "pickup" 2 0

/-- Scenario-B event 2: meter update of ride 1 with fare 5.50. -/
def meterUpd1 : Ride := mkRide "1" "meter-update" 2 (11/2)

/-- Scenario-B event 3: dropoff of ride 1 carrying the final fare 12.00. -/
def dropoff1 : Ride := mkRide "1" "dropoff" 2 12

/-- A dropoff event for the never-seen identifier 9. -/
def dropoff9 : Ride := mkRide "9" "dropoff" 2 12

/-- A dropoff for ride 1 whose raw values (3 passengers, fare 12.00) differ
from the stored registry record. -/
def dropoff1b : Ride := mkRide "1" "dropoff" 3 12

/-- A dropoff for ride 1 carrying the same values as its pickup. -/
def dropoff1z : Ride := mkRide "1" "dropoff" 2 0

/-- An in-progress event for an untracked ride with zero counts, used to
exercise `updateStats` at a zero denominator. -/
def rideIdle : Ride := mkRide "0" "idle" 0 0

/-- The state after the first two Scenario-B events (pickup fare 0.00, then
meter-update fare 5.50) from a clean reset. -/
def sB2 : DashState := (runOps [Op.ev pickup1, Op.ev meterUpd1]).1

/-- The state after processing a single dropoff for a never-seen identifier
from a clean reset. -/
def sUnk : DashState := (runOps [Op.ev dropoff9]).1

/-- The state after Scenario A (a single pickup) from a clean reset. -/
def sA : DashState := (runOps [Op.ev pickup1]).1

/-- The state after a pickup followed by a dropoff whose raw values differ
from the stored record. -/
def sD : DashState := (runOps [Op.ev pickup1, Op.ev dropoff1b]).1

/-- The state after a pickup and one identical dropoff. -/
def sOnceDrop : DashState := (runOps [Op.ev pickup1, Op.ev dropoff1]).1

/-- The state after a pickup and the identical dropoff applied twice. -/
def sTwiceDrop : DashState :=
  (runOps [Op.ev pickup1, Op.ev dropoff1, Op.ev dropoff1]).1

/-- The state after a pickup and a matching dropoff: zero active rides, zero
totals. -/
def sZero : DashState := (runOps [Op.ev pickup1, Op.ev dropoff1z]).1

/-- The state after one pickup followed by the explicit user-initiated
disconnect branch of `connect`. -/
def sDisc : DashState := (runOps [Op.ev pickup1, Op.disconnect]).1

/-- Five pickups of distinct rides from a clean reset. -/
def ops5 : List Op :=
  [Op.ev (mkRide "r1" "pickup" 1 0), Op.ev (mkRide "r2" "pickup" 1 0),
   Op.ev (mkRide "r3" "pickup" 1 0), Op.ev (mkRide "r4" "pickup" 1 0),
   Op.ev (mkRide "r5" "pickup" 1 0)]

/-- The state with five active rides (fewer than `maxNumRideCards = 9`). -/
def s5 : DashState := (runOps ops5).1

/-! ## Basic lemmas about the registry operations -/

theorem updateMeterTotal_rides (s : DashState) (r : Ride) (b : Bool) :
    (updateMeterTotal s r b).rides = s.rides := by
  unfold updateMeterTotal
  split
  · rfl
  · split
    · rfl
    · split <;> rfl

theorem updateMeterTotal_activeRides (s : DashState) (r : Ride) (b : Bool) :
    (updateMeterTotal s r b).activeRides = s.activeRides := by
  unfold updateMeterTotal
  split
  · rfl
  · split
    · rfl
    · split <;> rfl

theorem updateStats_rides (s : DashState) (r : Ride) (b : Bool) :
    (updateStats s r b).rides = s.rides := by
  unfold updateStats
  rw [show ({ s with totalUpdates := s.totalUpdates + 1 } : DashState).rides = s.rides from rfl]
    at *
  exact updateMeterTotal_rides _ r b

theorem updateStats_activeRides (s : DashState) (r : Ride) (b : Bool) :
    (updateStats s r b).activeRides = s.activeRides := by
  unfold updateStats
  exact updateMeterTotal_activeRides _ r b

theorem lookupRide_eq_none_iff (l : List (String × Ride)) (k : String) :
    lookupRide l k = none ↔ k ∉ l.map Prod.fst := by
  induction l with
  | nil => simp [lookupRide]
  | cons p rest ih =>
      by_cases h : p.1 = k
      · simp [lookupRide, h]
      · rw [lookupRide, if_neg h, ih]
        simp only [List.map_cons, List.mem_cons]
        constructor
        · intro hk hor
          rcases hor with hor | hor
          · exact h hor.symm
          · exact hk hor
        · intro hk hm
          exact hk (Or.inr hm)

theorem mem_of_lookupRide_some {l : List (String × Ride)} {k : String} {v : Ride}
    (h : lookupRide l k = some v) : k ∈ l.map Prod.fst := by
  induction l with
  | nil => simp [lookupRide] at h
  | cons p rest ih =>
      by_cases hp : p.1 = k
      · simp [hp]
      · rw [lookupRide, if_neg hp] at h
        simp [ih h]

theorem keys_upsert_of_lookup_none {l : List (String × Ride)} {k : String} (r : Ride)
    (h : lookupRide l k = none) :
    (upsert l k r).map Prod.fst = l.map Prod.fst ++ [k] := by
  induction l with
  | nil => simp [upsert]
  | cons p rest ih =>
      rw [lookupRide] at h
      by_cases hp : p.1 = k
      · rw [if_pos hp] at h; exact absurd h (by simp)
      · rw [if_neg hp] at h
        simp [upsert, hp, ih h]

theorem keys_upsert_of_lookup_some {l : List (String × Ride)} {k : String} {v : Ride} (r : Ride)
    (h : lookupRide l k = some v) :
    (upsert l k r).map Prod.fst = l.map Prod.fst := by
  induction l with
  | nil => simp [lookupRide] at h
  | cons p rest ih =>
      rw [lookupRide] at h
      by_cases hp : p.1 = k
      · simp [upsert, hp]
      · rw [if_neg hp] at h
        simp [upsert, hp, ih h]

theorem eraseKey_of_not_mem {l : List (String × Ride)} {k : String}
    (h : k ∉ l.map Prod.fst) : eraseKey l k = l := by
  induction l with
  | nil => rfl
  | cons p rest ih =>
      simp only [List.map_cons, List.mem_cons] at h
      push_neg at h
      rw [eraseKey, if_neg (fun hp => h.1 hp.symm), ih h.2]

theorem mem_keys_eraseKey {l : List (String × Ride)} {k x : String}
    (h : x ∈ (eraseKey l k).map Prod.fst) : x ∈ l.map Prod.fst := by
  induction l with
  | nil => simp [eraseKey] at h
  | cons p rest ih =>
      rw [eraseKey] at h
      by_cases hp : p.1 = k
      · rw [if_pos hp] at h
        simp [ih h]
      · rw [if_neg hp] at h
        simp only [List.map_cons, List.mem_cons] at h ⊢
        rcases h with h | h
        · exact Or.inl h
        · exact Or.inr (ih h)

theorem keys_eraseKey_nodup {l : List (String × Ride)} (k : String)
    (h : (l.map Prod.fst).Nodup) : ((eraseKey l k).map Prod.fst).Nodup := by
  induction l with
  | nil => simp [eraseKey]
  | cons p rest ih =>
      simp only [List.map_cons, List.nodup_cons] at h
      by_cases hp : p.1 = k
      · rw [eraseKey, if_pos hp]
        exact ih h.2
      · rw [eraseKey, if_neg hp]
        simp only [List.map_cons, List.nodup_cons]
        exact ⟨fun hm => h.1 (mem_keys_eraseKey hm), ih h.2⟩

theorem length_eraseKey_of_mem {l : List (String × Ride)} {k : String}
    (hn : (l.map Prod.fst).Nodup) (hm : k ∈ l.map Prod.fst) :
    (eraseKey l k).length + 1 = l.length := by
  induction l with
  | nil => simp at hm
  | cons p rest ih =>
      simp only [List.map_cons, List.nodup_cons] at hn
      simp only [List.map_cons, List.mem_cons] at hm
      by_cases hp : p.1 = k
      · rw [eraseKey, if_pos hp]
        rw [eraseKey_of_not_mem (hp ▸ hn.1)]
        simp
      · rcases hm with hm | hm
        · exact absurd hm.symm hp
        · rw [eraseKey, if_neg hp]
          simp only [List.length_cons]
          rw [← ih hn.2 hm]

/-! ## The registry/counter correspondence -/

/-- The correspondence between the Stats Aggregator's active-ride counter and
the Ride Registry: the counter equals the number of keys currently stored, and
the keys are pairwise distinct (so this is the number of identifiers present). -/
def countInv (s : DashState) : Prop :=
  s.activeRides = ((s.rides.map Prod.fst).length : ℤ) ∧ (s.rides.map Prod.fst).Nodup

theorem countInv_clearStats (s : DashState) : countInv (clearStats s) := by
  constructor <;> simp [clearStats]

theorem countInv_processRide (s : DashState) (r : Ride) (h : countInv s) :
    countInv (processRide s r).1 := by
  obtain ⟨hlen, hnd⟩ := h
  unfold processRide
  cases hl : lookupRide s.rides r.ride_id with
  | none =>
      constructor
      · rw [updateStats_activeRides, updateStats_rides]
        simp only [sequenceRide]
        rw [keys_upsert_of_lookup_none _ hl]
        simp only [List.length_append, List.length_singleton]
        push_cast
        omega
      · rw [updateStats_rides]
        simp only [sequenceRide]
        rw [keys_upsert_of_lookup_none _ hl]
        rw [List.nodup_append]
        refine ⟨hnd, List.nodup_singleton _, ?_⟩
        intro x hx hy
        simp only [List.mem_singleton] at hy
        subst hy
        exact ((lookupRide_eq_none_iff _ _).mp hl) hx
  | some v =>
      by_cases hd : r.ride_status = "dropoff"
      · rw [if_pos hd]
        constructor
        · rw [updateStats_activeRides, updateStats_rides]
          simp only
          have := length_eraseKey_of_mem hnd (mem_of_lookupRide_some hl)
          have hkeys : ((eraseKey s.rides r.ride_id).map Prod.fst).length
              = (eraseKey s.rides r.ride_id).length := by
            simp
          have hkeys2 : (s.rides.map Prod.fst).length = s.rides.length := by simp
          rw [hkeys2] at hlen
          rw [hkeys]
          omega
        · rw [updateStats_rides]
          exact keys_eraseKey_nodup _ hnd
      · rw [if_neg hd]
        constructor
        · rw [updateStats_activeRides, updateStats_rides]
          simp only [sequenceRide]
          rw [keys_upsert_of_lookup_some _ hl]
          exact hlen
        · rw [updateStats_rides]
          simp only [sequenceRide]
          rw [keys_upsert_of_lookup_some _ hl]
          exact hnd

theorem countInv_stepOp (acc : DashState × List Notif) (o : Op)
    (ho : o ≠ Op.disconnect) (h : countInv acc.1) : countInv (stepOp acc o).1 := by
  cases o with
  | ev r => exact countInv_processRide acc.1 r h
  | reset => exact countInv_clearStats acc.1
  | disconnect => exact absurd rfl ho

theorem countInv_foldl (ops : List Op) (acc : DashState × List Notif)
    (h : countInv acc.1) (hops : ∀ o ∈ ops, o ≠ Op.disconnect) :
    countInv (ops.foldl stepOp acc).1 := by
  induction ops generalizing acc with
  | nil => exact h
  | cons o rest ih =>
      rw [List.foldl_cons]
      exact ih (stepOp acc o)
        (countInv_stepOp acc o (hops o (List.mem_cons_self o rest)) h)
        (fun o' ho' => hops o' (List.mem_cons_of_mem o ho'))

/-! ## Claim theorems -/

/-- C1: the spec's invariant — that the incrementally maintained totals equal
the sums over the registry's current entries after any event sequence from a
clean reset — fails on the code. After Scenario B's pickup (fare 0.00) and
meter-update (fare 5.50), the registry's entries sum to 5.50 but `totalMeter`
is still 0: `sequence` stores the new record before `updateMeterTotal` reads
`rides[ride.ride_id]`, so the "delta" is always zero. -/
theorem C1_totals_diverge_from_registry :
    sB2.totalMeter = 0 ∧ registrySumMeter sB2 = 11/2 ∧
    sB2.totalMeter ≠ registrySumMeter sB2 := by
  norm_num +decide [sB2, registrySumMeter, runOps, stepOp, processRide, sequenceRide,
    updateStats, updateMeterTotal, lookupRide, upsert, eraseKey, clearStats, initState,
    mkRide, pickup1, meterUpd1, jsDivJ]

/-- C2: processing the stream [pickup fare 0.00, meter-update fare 5.50] leaves
`totalMeter` at 0, not at the claimed 5.50: the non-terminal update branch of
`updateMeterTotal` computes its delta against the record `sequence` has already
replaced, so nothing is ever added. -/
theorem C2_meter_delta_is_zero :
    sB2.totalMeter = 0 ∧ sB2.totalMeter ≠ 11/2 := by
  norm_num +decide [sB2, runOps, stepOp, processRide, sequenceRide,
    updateStats, updateMeterTotal, lookupRide, upsert, eraseKey, clearStats, initState,
    mkRide, pickup1, meterUpd1, jsDivJ]

/-- C3: a dropoff for a never-seen identifier is not a no-op. The code takes
the new-ride branch: the active count rises to 1, the ride enters the registry,
and `updateMeterTotal`'s dropoff branch subtracts the event's values, driving
both totals negative; no notification is emitted. -/
theorem C3_unknown_dropoff_mutates_state :
    sUnk.activeRides = 1 ∧ (lookupRide sUnk.rides "9").isSome = true ∧
    sUnk.totalPassengers = -2 ∧ sUnk.totalMeter = -12 ∧
    (runOps [Op.ev dropoff9]).2 = [] := by
  refine ⟨by decide, by decide, by decide, ?_, by decide⟩
  norm_num +decide [sUnk, runOps, stepOp, processRide, sequenceRide,
    updateStats, updateMeterTotal, lookupRide, upsert, eraseKey, clearStats, initState,
    mkRide, dropoff9, jsDivJ]

/-- C4: applying the identical dropoff twice is not idempotent. After the first
application the identifier is absent, so the second is classified as a new
ride: the active count returns to 1, the ride re-enters the registry, and the
totals are subtracted a second time (−2 passengers and −24.00 fare instead of
the post-first-application 0 and −12.00). -/
theorem C4_double_dropoff_double_subtracts :
    sOnceDrop.activeRides = 0 ∧ sOnceDrop.rides = [] ∧
    sOnceDrop.totalPassengers = 0 ∧ sOnceDrop.totalMeter = -12 ∧
    sTwiceDrop.activeRides = 1 ∧ (lookupRide sTwiceDrop.rides "1").isSome = true ∧
    sTwiceDrop.totalPassengers = -2 ∧ sTwiceDrop.totalMeter = -24 := by
  refine ⟨by decide, by decide, by decide, ?_, by decide, by decide, by decide, ?_⟩ <;>
    norm_num +decide [sOnceDrop, sTwiceDrop, runOps, stepOp, processRide, sequenceRide,
      updateStats, updateMeterTotal, lookupRide, upsert, eraseKey, clearStats, initState,
      mkRide, pickup1, dropoff1, jsDivJ]

/-- C8: `processRide` emits a notification exactly when the identifier is
already present in the registry and the status is "pickup" or "dropoff", and
the notification carries the event's identifier and status; a first sighting is
silent even when its status is "pickup". -/
theorem C8_notification_rule (s : DashState) (r : Ride) :
    (processRide s r).2 =
      (if (lookupRide s.rides r.ride_id).isSome
          ∧ (r.ride_status = "pickup" ∨ r.ride_status = "dropoff")
       then some (notifOf r) else none) := by
  unfold processRide
  cases hl : lookupRide s.rides r.ride_id with
  | none => simp
  | some v =>
      by_cases hd : r.ride_status = "dropoff"
      · simp [hd]
      · by_cases hp : r.ride_status = "pickup" <;> simp [hd, hp]

/-- C5 counterexample: the claim — that a tracked dropoff subtracts the stored
registry record's values — is false. After a pickup storing 2 passengers and
meter 0.00, a dropoff carrying 3 passengers and fare 12.00 drives the totals to
−1 and −12.00: the event's raw values were subtracted, not the stored 2 and
0.00 (which would have left 0 and 0.00). -/
theorem C5_counterexample :
    (lookupRide sA.rides "1").map Ride.passenger_count = some 2 ∧
    (lookupRide sA.rides "1").map Ride.meter_reading = some 0 ∧
    sA.totalPassengers = 2 ∧ sD.totalPassengers = -1 ∧ sD.totalMeter = -12 ∧
    sD.totalPassengers ≠ sA.totalPassengers - 2 := by
  refine ⟨by decide, ?_, by decide, by decide, ?_, by decide⟩ <;>
    norm_num +decide [sA, sD, runOps, stepOp, processRide, sequenceRide,
      updateStats, updateMeterTotal, lookupRide, upsert, eraseKey, clearStats, initState,
      mkRide, pickup1, dropoff1b, jsDivJ]

/-- C5 amended: for every dropoff event whose identifier is present in the
registry, the values subtracted from the totals are the event's own raw
passenger count and meter reading (the registry entry is deleted before
`updateStats` runs, and `updateMeterTotal`'s dropoff branch reads only the
event). -/
theorem C5_dropoff_subtracts_event_values (s : DashState) (r : Ride)
    (hp : (lookupRide s.rides r.ride_id).isSome = true)
    (hd : r.ride_status = "dropoff") :
    (processRide s r).1.totalPassengers = s.totalPassengers - r.passenger_count ∧
    (processRide s r).1.totalMeter = s.totalMeter - r.meter_reading := by
  unfold processRide
  cases hl : lookupRide s.rides r.ride_id with
  | none => rw [hl] at hp; simp at hp
  | some v => simp [hd, updateStats, updateMeterTotal]

/-- C5 witness: the amended statement at the concrete pickup-then-mismatched-
dropoff input. -/
theorem C5_witness :
    (processRide sA dropoff1b).1.totalPassengers
        = sA.totalPassengers - dropoff1b.passenger_count ∧
    (processRide sA dropoff1b).1.totalMeter = sA.totalMeter - dropoff1b.meter_reading :=
  C5_dropoff_subtracts_event_values sA dropoff1b (by decide) (by decide)

/-- C6 counterexample: the claim — that with zero active rides the derived
aggregates are zero / "no data", never NaN — is false. After a pickup and a
matching dropoff, the active count and the totals are all zero and
`updateStats` computes `avgDensity = 0 / 0 = NaN` and fare-per-passenger
`0 / 0 = NaN`: there is no divide-by-zero guard. -/
theorem C6_counterexample :
    sZero.activeRides = 0 ∧ sZero.totalPassengers = 0 ∧
    sZero.avgDensity = JSVal.nan ∧ meterPerPassengerVal sZero = JSVal.nan ∧
    sZero.avgDensity ≠ JSVal.num 0 := by
  refine ⟨by decide, by decide, ?_, ?_, ?_⟩ <;>
    norm_num +decide [sZero, meterPerPassengerVal, runOps, stepOp, processRide,
      sequenceRide, updateStats, updateMeterTotal, lookupRide, upsert, eraseKey,
      clearStats, initState, mkRide, pickup1, dropoff1z, jsDivJ]

/-- C6 amended: after any `updateStats` step that leaves the active-ride count
at zero and the passenger total at zero, the density is NaN, and whenever the
passenger total is zero the fare-per-passenger quotient is non-finite (NaN or a
signed infinity) — the unguarded IEEE quotients, not a defined zero / "no
data" result. -/
theorem C6_zero_denominators_give_nan (s : DashState) (r : Ride) (b : Bool)
    (h1 : (updateStats s r b).activeRides = 0)
    (h2 : (updateStats s r b).totalPassengers = 0) :
    (updateStats s r b).avgDensity = JSVal.nan ∧
    (meterPerPassengerVal (updateStats s r b)).isNum = false := by
  constructor
  · show jsDivJ _ _ = JSVal.nan
    have ha : ((updateMeterTotal { s with totalUpdates := s.totalUpdates + 1 } r b).activeRides : ℚ)
        = 0 := by
      rw [show (updateMeterTotal { s with totalUpdates := s.totalUpdates + 1 } r b).activeRides
            = (updateStats s r b).activeRides from rfl, h1]
      norm_num
    have hpq : ((updateMeterTotal { s with totalUpdates := s.totalUpdates + 1 } r b).totalPassengers : ℚ)
        = 0 := by
      rw [show (updateMeterTotal { s with totalUpdates := s.totalUpdates + 1 } r b).totalPassengers
            = (updateStats s r b).totalPassengers from rfl, h2]
      norm_num
    rw [jsDivJ, if_pos ha, if_pos hpq]
  · rw [meterPerPassengerVal, h2]
    rw [jsDivJ, if_pos (by norm_num)]
    split
    · rfl
    · split <;> rfl

/-- C6 witness: the amended statement at a concrete zero state. -/
theorem C6_witness :
    (updateStats initState rideIdle false).avgDensity = JSVal.nan ∧
    (meterPerPassengerVal (updateStats initState rideIdle false)).isNum = false :=
  C6_zero_denominators_give_nan initState rideIdle false (by decide) (by decide)

/-- C7 counterexample: the claim — that in every reachable state, including
after an explicit user-initiated disconnect, the active-ride counter equals the
number of identifiers in the registry — is false. After one pickup the counter
is 1; the user-initiated disconnect branch of `connect` empties the registry
but leaves the counter, so the state reached has counter 1 and an empty
registry. -/
theorem C7_counterexample :
    sDisc.activeRides = 1 ∧ sDisc.rides = [] ∧
    sDisc.activeRides ≠ ((sDisc.rides.map Prod.fst).length : ℤ) := by
  refine ⟨by decide, by decide, by decide⟩

/-- C7 amended: in every state reachable from a clean reset through event
processing and connect/reconnect resets (no explicit user-initiated disconnect
among the operations), the active-ride counter equals the number of identifiers
present in the registry (the stored keys, which are pairwise distinct). -/
theorem C7_counter_matches_registry (ops : List Op)
    (h : ∀ o ∈ ops, o ≠ Op.disconnect) :
    (runOps ops).1.activeRides = (((runOps ops).1.rides.map Prod.fst).length : ℤ) ∧
    ((runOps ops).1.rides.map Prod.fst).Nodup := by
  have := countInv_foldl ops (clearStats initState, []) (countInv_clearStats initState) h
  exact this

/-- C7 witness: the amended statement over the Scenario-B stream. -/
theorem C7_witness :
    (runOps [Op.ev pickup1, Op.ev meterUpd1, Op.ev dropoff1]).1.activeRides
      = (((runOps [Op.ev pickup1, Op.ev meterUpd1, Op.ev dropoff1]).1.rides.map
          Prod.fst).length : ℤ) ∧
    ((runOps [Op.ev pickup1, Op.ev meterUpd1, Op.ev dropoff1]).1.rides.map
        Prod.fst).Nodup :=
  C7_counter_matches_registry [Op.ev pickup1, Op.ev meterUpd1, Op.ev dropoff1] (by decide)

/-- C9: with 5 active rides (fewer than the 9 display slots), one tick of
`cycle` refreshes only 4 slots, not the claimed 5. `Object.keys(rides).slice
(activeRides - maxNumRideCards)` is called with the negative start −4, which JS
clamps to `length + start = 1`, so the sample holds only the last 4 keys and
the loop invokes `refreshCard` for slots 0–3 only. -/
theorem C9_tick_refreshes_too_few_slots :
    s5.activeRides = 5 ∧ (5 : ℕ) < maxNumRideCards ∧
    (cycle s5).map Prod.fst = [0, 1, 2, 3] ∧ (cycle s5).length = 4 := by
  decide

/-- C10 counterexample: the claim — that each tick selects the last
min(activeCount, maximum-displayed) identifiers in key insertion order — is
false. With 5 active rides and 9 slots, min is 5 (the whole key sequence), but
the sample is only the last 4 keys. -/
theorem C10_counterexample :
    s5.rides.map Prod.fst = ["r1", "r2", "r3", "r4", "r5"] ∧
    min s5.activeRides (maxNumRideCards : ℤ) = 5 ∧
    sampleKeys s5 = ["r2", "r3", "r4", "r5"] ∧
    sampleKeys s5 ≠ ["r1", "r2", "r3", "r4", "r5"] := by
  decide

/-- C10 amended: when the active-ride counter agrees with the registry size
(as it does in every connected reachable state), the scheduler's window is the
suffix of the registry's keys in insertion order starting at index
`activeCount − max` when `activeCount ≥ max` and at index
`max(2·activeCount − max, 0)` when `activeCount < max` — so it is the last
min(activeCount, max) identifiers only when `activeCount ≥ max` or
`activeCount ≤ max / 2`; and replacing an existing ride's record leaves the key
ordering (hence the window) unchanged. -/
theorem C10_window_characterization (s : DashState) (k : String) (r : Ride)
    (h1 : s.activeRides = ((s.rides.map Prod.fst).length : ℤ))
    (h2 : (lookupRide s.rides k).isSome = true) :
    sampleKeys s = (s.rides.map Prod.fst).drop
      (if maxNumRideCards ≤ (s.rides.map Prod.fst).length
       then (s.rides.map Prod.fst).length - maxNumRideCards
       else 2 * (s.rides.map Prod.fst).length - maxNumRideCards) ∧
    (upsert s.rides k r).map Prod.fst = s.rides.map Prod.fst := by
  constructor
  · unfold sampleKeys jsSlice
    rw [h1]
    simp only [maxNumRideCards]
    rcases le_or_lt 9 (s.rides.map Prod.fst).length with hc | hc
    · rw [if_neg (by push_cast; omega), if_pos hc]
      congr 1
      push_cast
      omega
    · rw [if_pos (by push_cast; omega), if_neg (by omega)]
      congr 1
      push_cast
      omega
  · rcases Option.isSome_iff_exists.mp h2 with ⟨v, hv⟩
    exact keys_upsert_of_lookup_some r hv

/-- C10 witness: the amended characterization at the five-ride state, with a
replacement of the oldest tracked ride. -/
theorem C10_witness :
    sampleKeys s5 = (s5.rides.map Prod.fst).drop
      (if maxNumRideCards ≤ (s5.rides.map Prod.fst).length
       then (s5.rides.map Prod.fst).length - maxNumRideCards
       else 2 * (s5.rides.map Prod.fst).length - maxNumRideCards) ∧
    (upsert s5.rides "r1" (mkRide "r1" "pickup" 1 0)).map Prod.fst
      = s5.rides.map Prod.fst :=
  C10_window_characterization s5 "r1" (mkRide "r1" "pickup" 1 0) (by decide) (by decide)
